import Mathlib

/-!
Verification development for the PhishGuard URL threat-scoring core
(`python_services/app/phish_core.py`, `python_services/app/database.py`,
`python_services/ai_training/urlhaus_integration.py`).

The Python code is shallowly embedded:
* strings are Lean `String`s and string scanning is done on `String.data`
  (the underlying `List Char`);
* floating-point confidence arithmetic is modelled over `ℚ` (the scores in
  the source are decimal literals combined by `+`, `min`, `max`);
* the SQLite tables are modelled as lists of records inside a `Store`
  structure; `INSERT OR IGNORE` / `UPDATE` statements become list
  operations keyed on the unique `url_hash` column;
* the sha256 digest of `_hash_url` is abstracted as the tagged normalized
  preimage (an injective, collision-free abstraction of the digest);
* the external HTTP calls (`_check_urlhaus`, `check_urlhaus_host`,
  `_check_phish_tank`) and `re.search` on the fixed signature regexes are
  oracles supplied through an `Env`; the HTTP oracles are `Except`-valued so
  that an exception escaping any internal step of `analyze_url` can be
  modelled (the `try`/`except` at the top of `analyze_url` catches it);
* `urllib.parse.urlparse` is modelled for the absolute URLs the pipeline
  produces (`scheme://netloc/path?query#fragment` splitting, including
  CPython's "Invalid IPv6 URL" `ValueError` on an unbalanced bracket in the
  netloc, which is a genuine raise point inside `_normalize_url`).
-/

set_option autoImplicit false

namespace PhishGuard

/-! ### List-of-characters utilities (Python `str` primitives) -/

/-- Python `s.startswith(p)` on explicit character lists. -/
def leadsWith : List Char → List Char → Bool
  | [], _ => true
  | _ :: _, [] => false
  | p :: ps, s :: ss => p == s && leadsWith ps ss

/-- Python substring containment `needle in haystack`. -/
def hasSub (needle : List Char) : List Char → Bool
  | [] => needle.isEmpty
  | c :: cs => leadsWith needle (c :: cs) || hasSub needle cs

/-- Python `s.split(sep)` for a one-character separator: always returns at
least one group, and empty groups between adjacent separators. -/
def splitOnChar (sep : Char) : List Char → List (List Char)
  | [] => [[]]
  | c :: cs =>
    match splitOnChar sep cs with
    | [] => [[]]
    | g :: gs => if c == sep then [] :: g :: gs else (c :: g) :: gs

/-- Split a character list at the first occurrence of `sep` (a multi-char
separator), returning the part before and the part after it. -/
def breakAtSeq (sep : List Char) : List Char → Option (List Char × List Char)
  | [] => none
  | c :: cs =>
    if leadsWith sep (c :: cs) then some ([], (c :: cs).drop sep.length)
    else
      match breakAtSeq sep cs with
      | some (a, b) => some (c :: a, b)
      | none => none

/-- Python `s.endswith(p)`; used only by the claim-side reading of the
suspicious-TLD test in C8. -/
def endsList (suf s : List Char) : Bool := leadsWith suf.reverse s.reverse

/-- Python `s.lower()` (ASCII case folding — the inputs of interest are
URLs; defined structurally on the character list so that it evaluates by
definitional reduction). -/
def pyLower (s : String) : String := String.mk (s.data.map Char.toLower)

/-- Python `s.strip()`: whitespace removed from both ends. -/
def pyStrip (s : String) : String :=
  String.mk (((s.data.dropWhile Char.isWhitespace).reverse.dropWhile Char.isWhitespace).reverse)

instance {α β : Type} [DecidableEq α] [DecidableEq β] : DecidableEq (Except α β) := fun x y =>
  match x, y with
  | .ok a, .ok b =>
    if h : a = b then isTrue (by rw [h]) else isFalse (by simp [h])
  | .error a, .error b =>
    if h : a = b then isTrue (by rw [h]) else isFalse (by simp [h])
  | .ok _, .error _ => isFalse (by simp)
  | .error _, .ok _ => isFalse (by simp)

/-! ### `urllib.parse.urlparse`, modelled for absolute URLs -/

/-- The components of `urlparse` the scoring core reads. -/
structure ParsedUrl where
  scheme : String
  netloc : String
  path : String
  query : String
  deriving DecidableEq, Repr

/-- Split the portion after the netloc into path and query, dropping any
fragment (Python splits the fragment at the first `#`). -/
def splitTail (rest : List Char) : List Char × List Char :=
  let beforeFrag := rest.takeWhile (fun c => !(c == '#'))
  let path := beforeFrag.takeWhile (fun c => !(c == '?'))
  let query := (beforeFrag.drop path.length).drop 1
  (path, query)

/-- Model of `urllib.parse.urlparse` restricted to what the core consumes.
When the URL contains `://` the netloc is taken up to the first of
`/ ? #`; CPython's check for an unbalanced `[`/`]` in the netloc raises
`ValueError("Invalid IPv6 URL")` and is modelled by the `error` branch.
Without `://` the netloc is empty and the whole string is split into
path/query/fragment (scheme validity subtleties of CPython for exotic raw
inputs are out of scope: every URL the pipeline parses went through
`ensureScheme` first). -/
def urlparseE (url : String) : Except String ParsedUrl :=
  match breakAtSeq "://".data url.data with
  | some (sch, rest) =>
    let netloc := rest.takeWhile (fun c => !(c == '/') && !(c == '?') && !(c == '#'))
    if (netloc.contains '[' && !(netloc.contains ']')) ||
       (netloc.contains ']' && !(netloc.contains '[')) then
      .error "Invalid IPv6 URL"
    else
      let (path, query) := splitTail (rest.drop netloc.length)
      .ok ⟨String.mk sch, String.mk netloc, String.mk path, String.mk query⟩
  | none =>
    let (path, query) := splitTail url.data
    .ok ⟨"", "", String.mk path, String.mk query⟩

/-! ### `_normalize_url` (phish_core.py lines 221-237) -/

/-- Scheme defaulting of `_normalize_url` and `_hash_url`:
`if not url.startswith(('http://', 'https://')): url = 'https://' + url`. -/
def ensureScheme (url : String) : String :=
  if leadsWith "http://".data url.data || leadsWith "https://".data url.data then url
  else "https://" ++ url

/-- The fixed tracking-parameter denylist of `_normalize_url`. -/
def tracking_params : List String := ["utm_source", "utm_medium", "utm_campaign", "ref", "source"]

/-- `PhishGuardCore._normalize_url`: default the scheme, then drop every
query parameter `p` for which some denylist name occurs as a substring of
the whole `key=value` text (`any(tp in p for tp in tracking_params)`), and
rebuild `scheme://netloc path [? query]`. -/
def normalize_url (url : String) : Except String String :=
  let url := ensureScheme url
  match urlparseE url with
  | .error e => .error e
  | .ok parsed =>
    let query_params : List String :=
      if parsed.query = "" then [] else (splitOnChar '&' parsed.query.data).map String.mk
    let filtered := query_params.filter
      (fun p => !(tracking_params.any (fun tp => hasSub tp.data p.data)))
    let clean_query := if filtered.isEmpty then "" else String.intercalate "&" filtered
    let clean_url := parsed.scheme ++ "://" ++ parsed.netloc ++ parsed.path
    .ok (if clean_query = "" then clean_url else clean_url ++ "?" ++ clean_query)

/-- Claim-side helper for C5: the key of a `key=value` query parameter. -/
def claimParamKey (p : String) : String :=
  String.mk ((splitOnChar '=' p.data).headD p.data)

/-! ### The Local Threat Store (`database.py`) -/

/-- `PhishGuardDatabase._hash_url`: lowercase, strip, default the scheme,
then sha256. The digest is abstracted as the tagged normalized preimage
(injective, collision-free abstraction of sha256). -/
def hash_url (url : String) : String :=
  "sha256:" ++ ensureScheme (pyStrip (pyLower url))

/-- One row of the `scam_urls` table. -/
structure ScamRecord where
  url_hash : String
  original_url : String
  domain : String
  threat_type : String
  confidence : ℚ
  source : String
  tags : Option (List String)
  first_seen : Nat
  last_seen : Nat
  report_count : Nat
  is_active : Bool
  deriving DecidableEq, Repr

/-- One row of the `user_reports` table (the columns the core writes). -/
structure UserReportRow where
  url_hash : String
  original_url : String
  description : String
  user_id : Option String
  deriving DecidableEq, Repr

/-- One row of the `detection_history` table (the columns `log_detection`
writes; `response_time_ms` is always NULL on the analyze path). -/
structure DetectionEvent where
  url_hash : String
  original_url : String
  threat_level : String
  confidence : ℚ
  detection_methods : List String
  is_suspicious : Bool
  deriving DecidableEq, Repr

/-- The persistent database: the three tables the scoring core touches.
Timestamps are abstract `Nat` ticks supplied by the environment. -/
structure Store where
  scam_urls : List ScamRecord
  user_reports : List UserReportRow
  history : List DetectionEvent
  deriving DecidableEq, Repr

/-- `PhishGuardDatabase.check_url_in_database`: point lookup by hash over
active records; on a hit the row's `last_seen` is refreshed and
`report_count` incremented (the returned record carries the pre-update
values, as the Python code builds its dict from the row fetched before the
`UPDATE`). -/
def check_url_in_database (now : Nat) (st : Store) (url : String) :
    Option ScamRecord × Store :=
  let h := hash_url url
  match st.scam_urls.find? (fun r => r.url_hash == h && r.is_active) with
  | none => (none, st)
  | some r =>
    (some r,
     { st with scam_urls := st.scam_urls.map (fun x =>
         if x.url_hash == h then { x with last_seen := now, report_count := x.report_count + 1 }
         else x) })

/-- The unconditional `UPDATE scam_urls SET report_count = report_count + 1,
last_seen = CURRENT_TIMESTAMP WHERE url_hash = ?` of `add_user_report`. -/
def bumpRec (now : Nat) (r : ScamRecord) : ScamRecord :=
  { r with report_count := r.report_count + 1, last_seen := now }

/-- `PhishGuardDatabase.add_user_report`: append a `user_reports` row, then
`INSERT OR IGNORE` a `scam_urls` row (threat_type `user_reported`, source
`user_report`, confidence 0.7, default `report_count` 1, active), then
unconditionally bump `report_count`/`last_seen` of the row with that hash —
including a freshly inserted one. If `urlparse` raises on the raw URL the
`except` branch reports failure without writing anything. -/
def add_user_report (now : Nat) (st : Store) (url description : String)
    (user_id : Option String) : Store :=
  match urlparseE url with
  | .error _ => st
  | .ok parsed =>
    let h := hash_url url
    let reports := st.user_reports ++ [⟨h, url, description, user_id⟩]
    let urls1 :=
      if st.scam_urls.any (fun r => r.url_hash == h) then st.scam_urls
      else st.scam_urls ++
        [⟨h, url, parsed.netloc, "user_reported", (7/10 : ℚ), "user_report", none, now, now, 1, true⟩]
    let urls2 := urls1.map (fun r => if r.url_hash == h then bumpRec now r else r)
    { scam_urls := urls2, user_reports := reports, history := st.history }

/-- `PhishGuardDatabase.log_detection`: fire-and-forget append to
`detection_history`. -/
def log_detection (st : Store) (url lvl : String) (conf : ℚ)
    (methods : List String) (susp : Bool) : Store :=
  { st with history := st.history ++ [⟨hash_url url, url, lvl, conf, methods, susp⟩] }

/-- Data-model invariant of §3 of the spec: every stored confidence lies in
[0,1] (all insert sites in the code write 0.9, 0.7 or the 0.8 default). -/
def StoreWF (st : Store) : Prop := ∀ r ∈ st.scam_urls, 0 ≤ r.confidence ∧ r.confidence ≤ 1

/-! ### Heuristic analyzers (phish_core.py lines 239-276, 639-687) -/

/-- URL-shortener markers tested by substring in `_pattern_analysis`. -/
def shortener_markers : List String := ["bit.ly", "goo.gl", "tinyurl.com", "t.co"]

/-- `self.threat_patterns`: the eight regex signatures (each match +0.2). -/
def threat_patterns : List String :=
  ["bit\\.ly|goo\\.gl|tinyurl\\.com",
   "facebook.*login|fb.*login",
   "bank.*verify|account.*secure",
   "free.*gift|win.*prize",
   "urgent.*action|immediate.*response",
   "myanmar.*bank|kbz.*verify",
   "game.*hack|free.*diamonds",
   "investment.*profit|money.*double"]

/-- The five Myanmar combination regexes; this identical local list appears
in both `_pattern_analysis` (weight 0.5) and `_detect_myanmar_scams`
(weight 0.4). -/
def regional_combo_patterns : List String :=
  ["kbz.*verify|kbz.*secure",
   "myanmar.*bank.*login",
   "lottery.*myanmar|sweepstakes.*burma",
   "inheritance.*myanmar|refund.*kyat",
   "police.*myanmar|court.*yangon"]

/-- `self.myanmar_scam_keywords`. -/
def myanmar_scam_keywords : List String :=
  ["kbz", "ayeyarwady", "cb", "mab", "uab", "yoma", "kanbawza",
   "myanmar", "burma", "yangon", "mandalay", "naypyidaw",
   "kyat", "mmk", "myanmar kyat", "dollar", "usd",
   "lottery", "sweepstakes", "inheritance", "refund",
   "tax", "customs", "immigration", "police", "court"]

/-- The suspicious-TLD list shared by `_pattern_analysis` and
`_analyze_url_structure`; both test it by substring containment. -/
def suspicious_tlds : List String := [".tk", ".ml", ".ga", ".cf", ".gq"]

/-- Membership in the character class of the special-character-ratio regex
(ASCII letters, digits, dot, slash, hyphen). -/
def isUrlSafeChar (c : Char) : Bool :=
  c.isAlpha || c.isDigit || c == '.' || c == '/' || c == '-'

/-- `PhishGuardCore._pattern_analysis`. `rs pat text` is the oracle for
`re.search(pat, text, re.IGNORECASE)` over the fixed signature lists; the
substring tests and the special-character ratio are concrete. A zero-length
URL would raise `ZeroDivisionError` in the ratio (modelled by the error
branch; unreachable from `analyze_url` because normalization prepends a
scheme). -/
def pattern_analysis (rs : String → String → Bool) (url : String) : Except String ℚ :=
  if url.data.length = 0 then .error "ZeroDivisionError" else
  let url_lower := pyLower url
  let s1 : ℚ := if shortener_markers.any (fun p => hasSub p.data url_lower.data) then (3/10 : ℚ) else 0
  let s2 : ℚ := (1/5 : ℚ) * (((threat_patterns.filter (fun p => rs p url_lower)).length : ℚ))
  let specials := (url.data.filter (fun c => !(isUrlSafeChar c))).length
  let frac : ℚ := (specials : ℚ) / (url.data.length : ℚ)
  let s3 : ℚ := if frac > (3/10 : ℚ) then (1/5 : ℚ) else 0
  let s4 : ℚ := if suspicious_tlds.any (fun t => hasSub t.data url_lower.data) then (2/5 : ℚ) else 0
  let s5 : ℚ := (1/2 : ℚ) * (((regional_combo_patterns.filter (fun p => rs p url_lower)).length : ℚ))
  .ok (min (s1 + s2 + s3 + s4 + s5) 1)

/-- `PhishGuardCore._detect_myanmar_scams`. -/
def detect_myanmar_scams (rs : String → String → Bool) (url : String) : ℚ :=
  let url_lower := pyLower url
  let kw := (myanmar_scam_keywords.filter (fun k => hasSub k.data url_lower.data)).length
  let s1 : ℚ := if kw > 0 then (3/10 : ℚ) else 0
  let s2 : ℚ := (2/5 : ℚ) * (((regional_combo_patterns.filter (fun p => rs p url_lower)).length : ℚ))
  min (s1 + s2) 1

/-- One-or-more digits at the head of the list (`\d+`), returning the rest. -/
def chompDigits : List Char → Option (List Char)
  | [] => none
  | c :: cs => if c.isDigit then some (cs.dropWhile Char.isDigit) else none

/-- A literal dot at the head of the list. -/
def chompDot : List Char → Option (List Char)
  | [] => none
  | c :: cs => if c == '.' then some cs else none

/-- `re.match(r'\d+\.\d+\.\d+\.\d+', s)`: the pattern is anchored at the
start only, so any string *beginning with* four dot-separated digit runs
matches — including hosts such as `1.2.3.4.evil.com` that are not IP
addresses. -/
def ipDottedQuadLead (s : List Char) : Bool :=
  ((((((chompDigits s).bind chompDot).bind chompDigits).bind chompDot).bind
      chompDigits).bind chompDot |>.bind chompDigits).isSome

/-- The netloc-level body of `PhishGuardCore._analyze_url_structure`,
accumulating `score` exactly in the source's order: domain length, IP
prefix regex, suspicious-TLD substring, subdomain count. -/
def structure_netloc_score (netloc : String) : ℚ :=
  let score0 : ℚ := 0
  let score1 := if netloc.data.length > 50 then score0 + (1/5 : ℚ) else score0
  let score2 := if ipDottedQuadLead netloc.data then score1 + (2/5 : ℚ) else score1
  let score3 := if suspicious_tlds.any (fun t => hasSub t.data netloc.data) then score2 + (3/10 : ℚ)
                else score2
  let subdomain_count := (splitOnChar '.' netloc.data).length - 1
  let score4 := if subdomain_count > 3 then score3 + (1/5 : ℚ) else score3
  min score4 1

/-- `PhishGuardCore._analyze_url_structure`: parse, then score the netloc. -/
def analyze_url_structure (url : String) : Except String ℚ :=
  match urlparseE url with
  | .error e => .error e
  | .ok p => .ok (structure_netloc_score p.netloc)

/-- Claim-side definition for C8, following the claim's words: the host is
a literal dotted-quad IP address (exactly four all-digit labels). -/
def claimIsDottedQuadIP (netloc : String) : Bool :=
  let parts := splitOnChar '.' netloc.data
  parts.length == 4 && parts.all (fun p => !p.isEmpty && p.all Char.isDigit)

/-- Claim-side definition for C8, following the claim's words: the host
"matches a suspicious TLD", read as the TLD being one of the listed
suffixes. -/
def claimHasSuspiciousTld (netloc : String) : Bool :=
  suspicious_tlds.any (fun t => endsList t.data netloc.data)

/-- Claim-side structure score for C8 exactly as the claim states it: the
clamped sum of +0.4 for a literal dotted-quad IP host, +0.2 for domain
length over 50, +0.3 for a suspicious TLD, +0.2 for more than 3 subdomain
labels (the source's `len(netloc.split('.')) - 1 > 3` count). -/
def claimStructureScore (netloc : String) : ℚ :=
  min ((if claimIsDottedQuadIP netloc then (2/5 : ℚ) else 0)
     + (if netloc.data.length > 50 then (1/5 : ℚ) else 0)
     + (if claimHasSuspiciousTld netloc then (3/10 : ℚ) else 0)
     + (if (splitOnChar '.' netloc.data).length - 1 > 3 then (1/5 : ℚ) else 0)) 1

/-- Amended claim-side structure score for C8: as `claimStructureScore` but
with the conditions the code actually tests — the unanchored
digits-dot-digits-dot-digits-dot-digits prefix match and suspicious-TLD
substring containment. -/
def amendedStructureScore (netloc : String) : ℚ :=
  min ((if ipDottedQuadLead netloc.data then (2/5 : ℚ) else 0)
     + (if netloc.data.length > 50 then (1/5 : ℚ) else 0)
     + (if suspicious_tlds.any (fun t => hasSub t.data netloc.data) then (3/10 : ℚ) else 0)
     + (if (splitOnChar '.' netloc.data).length - 1 > 3 then (1/5 : ℚ) else 0)) 1

/-! ### Threat-intel confidence (`urlhaus_integration.py` lines 150-179) -/

/-- `high_risk_tags` of `_calculate_confidence`. -/
def high_risk_tags : List String := ["exe", "dll", "zip", "rar", "malware", "trojan", "ransomware"]

/-- `status_modifiers.get(url_status, -0.2)`: the dict maps `online` to 0,
`offline` to −0.1, `unknown` to −0.2 and everything else to the −0.2
default. -/
def urlStatusModifier (s : String) : ℚ :=
  if s = "online" then 0
  else if s = "offline" then -(1/10 : ℚ)
  else if s = "unknown" then -(1/5 : ℚ)
  else -(1/5 : ℚ)

/-- `URLhausIntegration._calculate_confidence`. `daysOld` is
`(datetime.now() - added_date).days` when `date_added` is nonempty and
parseable, `none` otherwise (empty string or `ValueError`). -/
def calculate_confidence (url_status : String) (daysOld : Option Int)
    (tags : List String) : ℚ :=
  let c := (9/10 : ℚ) + urlStatusModifier url_status
  let c := match daysOld with
           | some d => if d > 30 then c - (1/10 : ℚ) else c
           | none => c
  let c := if high_risk_tags.any (fun t => tags.contains t) then min (19/20 : ℚ) (c + (1/20 : ℚ)) else c
  max 0 (min 1 c)

/-- Claim-side confidence formula for C6 exactly as the claim enumerates
it: base 0.9, −0.1 only for `offline`, −0.2 only for `unknown` (no
adjustment for any other status), −0.1 for age over 30 days, +0.05 capped
at 0.95 on a high-risk tag, clamped to [0,1]. -/
def claimIntelConfidence (url_status : String) (daysOld : Option Int)
    (tags : List String) : ℚ :=
  let c := (9/10 : ℚ) + (if url_status = "offline" then (-(1/10 : ℚ) : ℚ) else 0)
               + (if url_status = "unknown" then (-(1/5 : ℚ) : ℚ) else 0)
  let c := match daysOld with
           | some d => if d > 30 then c - (1/10 : ℚ) else c
           | none => c
  let c := if high_risk_tags.any (fun t => tags.contains t) then min (19/20 : ℚ) (c + (1/20 : ℚ)) else c
  max 0 (min 1 c)

/-- Amended claim-side confidence formula for C6: as the claim, except that
the status adjustment is −0.2 for every status other than `online` and
`offline` (the modifier table's default), which subsumes `unknown`. -/
def amendedIntelConfidence (url_status : String) (daysOld : Option Int)
    (tags : List String) : ℚ :=
  let adj : ℚ := if url_status = "online" then 0 else if url_status = "offline" then -(1/10 : ℚ) else -(1/5 : ℚ)
  let c := (9/10 : ℚ) + adj
  let c := match daysOld with
           | some d => if d > 30 then c - (1/10 : ℚ) else c
           | none => c
  let c := if high_risk_tags.any (fun t => tags.contains t) then min (19/20 : ℚ) (c + (1/20 : ℚ)) else c
  max 0 (min 1 c)

/-! ### The Verdict and the tier updates of `analyze_url` -/

/-- The working/return dict of `analyze_url` on the success path
(phish_core.py lines 81-89, plus the `message` key added before every
return; `message` is modelled as a field initialized to `""`, and
`analysis_time` as the environment's clock tick). -/
structure Verdict where
  url : String
  is_suspicious : Bool
  threat_level : String
  detection_methods : List String
  warnings : List String
  confidence : ℚ
  analysis_time : Nat
  message : String
  deriving DecidableEq, Repr

/-- The fresh `results` dict of lines 81-89. -/
def initVerdict (now : Nat) (nurl : String) : Verdict :=
  ⟨nurl, false, "safe", [], [], 0, now, ""⟩

/-- `PhishGuardCore._generate_response_message` (emoji prefixes of the
source strings omitted). -/
def generate_response_message (v : Verdict) : String :=
  if v.threat_level = "critical" then
    if v.detection_methods.contains "urlhaus" then
      "CRITICAL WARNING: This link has been confirmed as MALWARE by URLhaus! Do NOT click it. Report it immediately."
    else if v.detection_methods.contains "phish_tank" then
      "CRITICAL WARNING: This link has been confirmed as a phishing scam! Do NOT click it. Report it immediately."
    else
      "CRITICAL WARNING: This link has been confirmed as dangerous! Do NOT click it. Report it immediately."
  else if v.threat_level = "high" then
    if v.detection_methods.contains "urlhaus_host" then
      "HIGH RISK: This domain hosts multiple malware URLs. We strongly recommend avoiding this link."
    else if v.detection_methods.contains "myanmar_specific" then
      "HIGH RISK: This link matches Myanmar-specific scam patterns. We recommend avoiding it and reporting it."
    else
      "HIGH RISK: This link shows strong signs of being a scam. We recommend avoiding it and reporting it."
  else if v.threat_level = "medium" then
    if v.detection_methods.contains "pattern_analysis" then
      "SUSPICIOUS: This link has concerning characteristics. Please be very careful and verify the source."
    else
      "SUSPICIOUS: This link has some concerning characteristics. Please be very careful and verify the source."
  else if v.threat_level = "safe" then
    if v.detection_methods.contains "urlhaus" then
      "SAFE: This link has been checked against URLhaus malware database and appears safe, but always remain cautious."
    else
      "SAFE: This link appears to be safe, but always remain cautious and verify the source."
  else
    "UNKNOWN: We could not determine the safety of this link. Please use caution and verify the source."

/-- The common epilogue of every success return: clamp the confidence to
1.0 and render the message. -/
def finalize (v : Verdict) : Verdict :=
  let v := { v with confidence := min v.confidence 1 }
  { v with message := generate_response_message v }

/-! Each tier update returns the new verdict together with the severity it
contributed when it fired (`none` when it did not fire); the contribution
labels instrument the run for the monotone-escalation property and do not
influence the verdict itself. -/

/-- Tier 1 body, lines 93-98: local-database hit. -/
def tier_local (rec : ScamRecord) (v : Verdict) : Verdict × Option String :=
  ({ v with is_suspicious := true, threat_level := "critical",
            detection_methods := v.detection_methods ++ ["local_database"],
            confidence := v.confidence + rec.confidence,
            warnings := v.warnings ++ ["Local DB: " ++ rec.threat_type ++ " - " ++ rec.source] },
   some "critical")

/-- Tier 2 body, lines 112-117: URLhaus URL query malicious. -/
def tier_urlhaus (details : String) (v : Verdict) : Verdict × Option String :=
  ({ v with is_suspicious := true, threat_level := "critical",
            detection_methods := v.detection_methods ++ ["urlhaus"],
            confidence := v.confidence + (19/20 : ℚ),
            warnings := v.warnings ++ ["URLhaus: " ++ details] },
   some "critical")

/-- The supplementary host check inside tier 2, lines 127-133: it adds the
method and +0.1 confidence (once) and a warning, but never touches the
threat level. -/
def tier_urlhaus_host_sub (success malicious : Bool) (url_count : Nat)
    (v : Verdict) : Verdict × Option String :=
  if success && malicious then
    let v' := if v.detection_methods.contains "urlhaus_host" then v
              else { v with detection_methods := v.detection_methods ++ ["urlhaus_host"],
                            confidence := v.confidence + (1/10 : ℚ) }
    ({ v' with warnings := v'.warnings ++
        ["URLhaus Host: " ++ toString url_count ++ " malware URLs found on this domain"] },
     some "high")
  else (v, none)

/-- Tier 3, lines 149-156: standalone URLhaus host check. -/
def tier_urlhaus_host (success malicious : Bool) (url_count : Nat)
    (v : Verdict) : Verdict × Option String :=
  if success && malicious then
    ({ v with is_suspicious := true, threat_level := "high",
              detection_methods := v.detection_methods ++ ["urlhaus_host"],
              confidence := v.confidence + (17/20 : ℚ),
              warnings := v.warnings ++
                ["URLhaus Host: " ++ toString url_count ++ " malware URLs found on this domain"] },
     some "high")
  else (v, none)

/-- Tier 4, lines 160-168: PhishTank. -/
def tier_phish_tank (is_phishing : Bool) (details : String)
    (v : Verdict) : Verdict × Option String :=
  if is_phishing then
    let lvl := if v.threat_level = "safe" then "critical"
               else if v.threat_level = "high" then "critical"
               else v.threat_level
    ({ v with is_suspicious := true, threat_level := lvl,
              detection_methods := v.detection_methods ++ ["phish_tank"],
              confidence := v.confidence + (4/5 : ℚ),
              warnings := v.warnings ++ ["PhishTank: " ++ details] },
     some "critical")
  else (v, none)

/-- Tier 5, lines 172-180: pattern heuristic, threshold 0.3. -/
def tier_pattern (score : ℚ) (v : Verdict) : Verdict × Option String :=
  if score > (3/10 : ℚ) then
    let lvl := if v.threat_level = "safe" then (if score > (7/10 : ℚ) then "high" else "medium")
               else v.threat_level
    ({ v with is_suspicious := true, threat_level := lvl,
              detection_methods := v.detection_methods ++ ["pattern_analysis"],
              confidence := v.confidence + score * (2/5 : ℚ) },
     some (if score > (7/10 : ℚ) then "high" else "medium"))
  else (v, none)

/-- Tier 6, lines 184-189: structure heuristic, threshold 0.6. -/
def tier_structure (score : ℚ) (v : Verdict) : Verdict × Option String :=
  if score > (3/5 : ℚ) then
    let lvl := if v.threat_level = "safe" then "medium" else v.threat_level
    ({ v with is_suspicious := true, threat_level := lvl,
              detection_methods := v.detection_methods ++ ["url_structure"],
              confidence := v.confidence + (1/5 : ℚ) },
     some "medium")
  else (v, none)

/-- Tier 7, lines 193-201: Myanmar heuristic, threshold 0.7. -/
def tier_myanmar (score : ℚ) (v : Verdict) : Verdict × Option String :=
  if score > (7/10 : ℚ) then
    let lvl := if v.threat_level = "safe" then "high"
               else if v.threat_level = "medium" then "high"
               else v.threat_level
    ({ v with is_suspicious := true, threat_level := lvl,
              detection_methods := v.detection_methods ++ ["myanmar_specific"],
              confidence := v.confidence + (2/5 : ℚ),
              warnings := v.warnings ++ ["Myanmar-specific scam pattern detected"] },
     some "high")
  else (v, none)

/-! ### The environment and the pipeline -/

/-- Normalized result of `_check_urlhaus` as the pipeline consumes it. -/
structure UrlhausUrlResult where
  is_malicious : Bool
  details : String
  deriving DecidableEq, Repr

/-- Normalized result of `check_urlhaus_host` as the pipeline consumes it. -/
structure UrlhausHostResult where
  success : Bool
  is_malicious : Bool
  url_count : Nat
  deriving DecidableEq, Repr

/-- Normalized result of `_check_phish_tank` as the pipeline consumes it. -/
structure PhishTankResult where
  is_phishing : Bool
  details : String
  deriving DecidableEq, Repr

/-- The external world of one `analyze_url` call: the three HTTP checkers
(`Except`-valued so that an exception escaping an internal step can be
modelled — the `try`/`except` of `analyze_url` catches anything raised in
its body), the `re.search` oracle for the fixed signature regexes, and the
clock. -/
structure Env where
  check_urlhaus : String → Except String UrlhausUrlResult
  check_urlhaus_host : String → Except String UrlhausHostResult
  check_phish_tank : String → Except String PhishTankResult
  re_search : String → String → Bool
  now : Nat

/-- Trace tags for the external/heuristic work `analyze_url` performs, in
order; used to state the terminal-tier (short-circuit) claims. -/
inductive ExtCall
  | dbCheck | urlhausUrl | urlhausHost | phishTank | patternHeur | structureHeur | regionalHeur
  deriving DecidableEq, Repr

/-- Everything one run of the `try` body produces: the verdict or the
raised exception, the mutated store, the calls issued, the threat level
after each executed tier, and the severity contributed by each fired
tier. -/
structure RunOut where
  result : Except String Verdict
  store : Store
  calls : List ExtCall
  levels : List String
  contribs : List String
  deriving Repr

/-- Tiers 4-7 of `analyze_url` (lines 158-209): PhishTank, pattern,
structure and Myanmar heuristics, then clamp and render (no detection log
on this path in the source). -/
def afterHost (env : Env) (st : Store) (nurl : String) (v1 : Verdict)
    (calls : List ExtCall) (levels contribs : List String) : RunOut :=
  match env.check_phish_tank nurl with
  | .error e => ⟨.error e, st, calls ++ [.phishTank], levels, contribs⟩
  | .ok pt =>
    let (v2, c2) := tier_phish_tank pt.is_phishing pt.details v1
    match pattern_analysis env.re_search nurl with
    | .error e => ⟨.error e, st, calls ++ [.phishTank, .patternHeur],
                   levels ++ [v2.threat_level], contribs ++ c2.toList⟩
    | .ok ps =>
      let (v3, c3) := tier_pattern ps v2
      match analyze_url_structure nurl with
      | .error e => ⟨.error e, st, calls ++ [.phishTank, .patternHeur, .structureHeur],
                     levels ++ [v2.threat_level, v3.threat_level],
                     contribs ++ c2.toList ++ c3.toList⟩
      | .ok ss =>
        let (v4, c4) := tier_structure ss v3
        let ms := detect_myanmar_scams env.re_search nurl
        let (v5, c5) := tier_myanmar ms v4
        ⟨.ok (finalize v5), st, calls ++ [.phishTank, .patternHeur, .structureHeur, .regionalHeur],
         levels ++ [v2.threat_level, v3.threat_level, v4.threat_level, v5.threat_level],
         contribs ++ c2.toList ++ c3.toList ++ c4.toList ++ c5.toList⟩

/-- Tier 3 (lines 145-156) followed by the fallback tiers: the standalone
host check runs only when the normalized URL has a nonempty netloc. -/
def fallThroughTiers (env : Env) (st : Store) (nurl : String) (v0 : Verdict)
    (p : ParsedUrl) : RunOut :=
  if p.netloc = "" then
    afterHost env st nurl v0 [.dbCheck, .urlhausUrl] [] []
  else
    match env.check_urlhaus_host p.netloc with
    | .error e => ⟨.error e, st, [.dbCheck, .urlhausUrl, .urlhausHost], [], []⟩
    | .ok hr =>
      let (v1, c1) := tier_urlhaus_host hr.success hr.is_malicious hr.url_count v0
      afterHost env st nurl v1 [.dbCheck, .urlhausUrl, .urlhausHost]
        [v1.threat_level] c1.toList

/-- The `try` body of `PhishGuardCore.analyze_url` (lines 76-209):
normalize, tier-1 local lookup (terminal on hit, with detection log),
tier-2 URLhaus URL query (terminal on detection, with write-through via
`add_user_report`, supplementary host check and detection log), then the
fall-through tiers. -/
def runAnalysis (env : Env) (st0 : Store) (url : String) : RunOut :=
  match normalize_url url with
  | .error e => ⟨.error e, st0, [], [], []⟩
  | .ok nurl =>
    let v0 := initVerdict env.now nurl
    match check_url_in_database env.now st0 nurl with
    | (some rec, st1) =>
      let (v1, c1) := tier_local rec v0
      let st2 := log_detection st1 nurl v1.threat_level v1.confidence
                   v1.detection_methods v1.is_suspicious
      ⟨.ok (finalize v1), st2, [.dbCheck], [v1.threat_level], c1.toList⟩
    | (none, st1) =>
      match env.check_urlhaus nurl with
      | .error e => ⟨.error e, st1, [.dbCheck, .urlhausUrl], [], []⟩
      | .ok uh =>
        if uh.is_malicious then
          let (v1, c1) := tier_urlhaus uh.details v0
          let st2 := add_user_report env.now st1 nurl
                       ("Detected by URLhaus: " ++ uh.details) none
          match urlparseE nurl with
          | .error e => ⟨.error e, st2, [.dbCheck, .urlhausUrl], [v1.threat_level], c1.toList⟩
          | .ok p =>
            if p.netloc = "" then
              let st3 := log_detection st2 nurl v1.threat_level v1.confidence
                           v1.detection_methods v1.is_suspicious
              ⟨.ok (finalize v1), st3, [.dbCheck, .urlhausUrl], [v1.threat_level], c1.toList⟩
            else
              match env.check_urlhaus_host p.netloc with
              | .error e =>
                ⟨.error e, st2, [.dbCheck, .urlhausUrl, .urlhausHost],
                 [v1.threat_level], c1.toList⟩
              | .ok hr =>
                let (v2, c2) := tier_urlhaus_host_sub hr.success hr.is_malicious hr.url_count v1
                let st3 := log_detection st2 nurl v2.threat_level v2.confidence
                             v2.detection_methods v2.is_suspicious
                ⟨.ok (finalize v2), st3, [.dbCheck, .urlhausUrl, .urlhausHost],
                 [v1.threat_level, v2.threat_level], c1.toList ++ c2.toList⟩
        else
          match urlparseE nurl with
          | .error e => ⟨.error e, st1, [.dbCheck, .urlhausUrl], [], []⟩
          | .ok p => fallThroughTiers env st1 nurl v0 p

/-- The value `analyze_url` hands its caller: the success dict or the
`except` dict of lines 213-219 (url = the *raw* input, `is_suspicious`
False, `threat_level` "unknown", the error text, and the fixed apology
message). -/
inductive AnalyzeResult
  | ok (v : Verdict)
  | failed (url error_text message : String)
  deriving DecidableEq, Repr

/-- One complete `analyze_url` call: result plus the side effects and the
instrumentation of the run. -/
structure AnalyzeOut where
  result : AnalyzeResult
  store : Store
  calls : List ExtCall
  levels : List String
  contribs : List String
  deriving Repr

/-- `PhishGuardCore.analyze_url`: run the `try` body; on an exception
return the fallback dict (state mutations committed before the raise
persist, as each database helper commits its own transaction). -/
def analyze_url (env : Env) (st : Store) (url : String) : AnalyzeOut :=
  let r := runAnalysis env st url
  match r.result with
  | .ok v => ⟨.ok v, r.store, r.calls, r.levels, r.contribs⟩
  | .error e => ⟨.failed url e "Unable to analyze this URL at the moment.",
                 r.store, r.calls, r.levels, r.contribs⟩

/-- The keys of the Python dict each result shape carries (success dict of
lines 81-88 plus `message`; error dict of lines 213-218). -/
def resultKeys : AnalyzeResult → List String
  | .ok _ => ["url", "is_suspicious", "threat_level", "detection_methods",
              "warnings", "confidence", "analysis_time", "message"]
  | .failed _ _ _ => ["url", "is_suspicious", "threat_level", "error", "message"]

/-- The `threat_level` value of either result shape. -/
def resThreatLevel : AnalyzeResult → String
  | .ok v => v.threat_level
  | .failed _ _ _ => "unknown"

/-- The `is_suspicious` value of either result shape. -/
def resIsSuspicious : AnalyzeResult → Bool
  | .ok v => v.is_suspicious
  | .failed _ _ _ => false

/-- The `url` value of either result shape. -/
def resUrlField : AnalyzeResult → String
  | .ok v => v.url
  | .failed u _ _ => u

/-! ### Severity ordering and escalation instrumentation -/

/-- The claim's severity ordering: critical > high > medium > safe >
unknown. -/
def severityOf (lvl : String) : Nat :=
  if lvl = "critical" then 4
  else if lvl = "high" then 3
  else if lvl = "medium" then 2
  else if lvl = "safe" then 1
  else 0

/-- Maximum severity over a list of contributed levels, starting from the
initial `safe`. -/
def sevFold (contribs : List String) : Nat :=
  contribs.foldl (fun a c => max a (severityOf c)) (severityOf "safe")

/-- `monoFrom s ls` holds when the severities of the levels in `ls` are
nondecreasing, starting no lower than `s`. -/
def monoFrom (s : Nat) : List String → Bool
  | [] => true
  | l :: ls => decide (s ≤ severityOf l) && monoFrom (severityOf l) ls

/-- Severity of the last level of the list (`s` when the list is empty). -/
def lastSev (s : Nat) : List String → Nat
  | [] => s
  | l :: ls => lastSev (severityOf l) ls

/-! ### Generic helper lemmas -/

@[simp] lemma severityOf_critical : severityOf "critical" = 4 := by decide

@[simp] lemma severityOf_high : severityOf "high" = 3 := by decide

@[simp] lemma severityOf_medium : severityOf "medium" = 2 := by decide

@[simp] lemma severityOf_safe : severityOf "safe" = 1 := by decide

@[simp] lemma finalize_threat_level (v : Verdict) :
    (finalize v).threat_level = v.threat_level := rfl

@[simp] lemma finalize_is_suspicious (v : Verdict) :
    (finalize v).is_suspicious = v.is_suspicious := rfl

@[simp] lemma finalize_detection_methods (v : Verdict) :
    (finalize v).detection_methods = v.detection_methods := rfl

@[simp] lemma finalize_confidence (v : Verdict) :
    (finalize v).confidence = min v.confidence 1 := rfl

@[simp] lemma finalize_url (v : Verdict) : (finalize v).url = v.url := rfl

lemma tier_urlhaus_host_sub_level (s m : Bool) (c : Nat) (v : Verdict) :
    (tier_urlhaus_host_sub s m c v).1.threat_level = v.threat_level := by
  unfold tier_urlhaus_host_sub
  split_ifs <;> rfl

lemma monoFrom_append (s : Nat) (xs ys : List String) :
    monoFrom s (xs ++ ys) = (monoFrom s xs && monoFrom (lastSev s xs) ys) := by
  induction xs generalizing s with
  | nil => simp [monoFrom, lastSev]
  | cons l ls ih => simp [monoFrom, lastSev, ih, Bool.and_assoc]

lemma sevFold_append (xs ys : List String) :
    sevFold (xs ++ ys) = ys.foldl (fun a c => max a (severityOf c)) (sevFold xs) := by
  simp [sevFold, List.foldl_append]

lemma pattern_analysis_bounds (rs : String → String → Bool) (u : String) (q : ℚ)
    (h : pattern_analysis rs u = Except.ok q) : 0 ≤ q ∧ q ≤ 1 := by
  unfold pattern_analysis at h
  split at h
  · exact absurd h (by simp)
  · simp only [Except.ok.injEq] at h
    subst h
    refine ⟨le_min ?_ (by norm_num), min_le_right _ _⟩
    dsimp only
    split_ifs <;> positivity

lemma structure_netloc_score_bounds (n : String) :
    0 ≤ structure_netloc_score n ∧ structure_netloc_score n ≤ 1 := by
  unfold structure_netloc_score
  refine ⟨le_min ?_ (by norm_num), min_le_right _ _⟩
  dsimp only
  split_ifs <;> norm_num

lemma detect_myanmar_scams_bounds (rs : String → String → Bool) (u : String) :
    0 ≤ detect_myanmar_scams rs u ∧ detect_myanmar_scams rs u ≤ 1 := by
  unfold detect_myanmar_scams
  refine ⟨le_min ?_ (by norm_num), min_le_right _ _⟩
  dsimp only
  split_ifs <;> positivity

lemma map_keep_of_no_hash (now : Nat) (h : String) (l : List ScamRecord)
    (hl : ∀ r ∈ l, ¬ r.url_hash = h) :
    l.map (fun r => if r.url_hash == h then bumpRec now r else r) = l := by
  induction l with
  | nil => rfl
  | cons a as ih =>
    have ha : (a.url_hash == h) = false := by
      simpa using hl a (by simp)
    simp only [List.map_cons, ha, Bool.false_eq_true, if_false, List.cons.injEq, true_and]
    exact ih (fun r hr => hl r (by simp [hr]))

/-! ### C5: the query-parameter denylist of the normalizer -/

/-- C5 counterexample input: the parameter `q=reference` has key `q`, which
is not in the denylist, yet `_normalize_url` removes it because the
denylist name `ref` occurs as a substring of the text `q=reference` — so
the claim's "removes a parameter if and only if its key is in the
denylist" is false on the code. -/
theorem C5_counterexample :
    normalize_url "https://example.com/path?q=reference" = Except.ok "https://example.com/path" ∧
    claimParamKey "q=reference" = "q" ∧
    tracking_params.contains "q" = false := by
  refine ⟨rfl, rfl, rfl⟩

/-- C5 (amended): for every URL with a query string, `_normalize_url`
removes a query parameter iff some denylist name occurs as a substring of
the parameter's whole `key=value` text; all other parameters are preserved
and keep their relative order (the kept list is a sublist of the original
parameter list). -/
theorem C5_amended (url s n pth q : String)
    (hp : urlparseE (ensureScheme url) = Except.ok ⟨s, n, pth, q⟩) (hq : ¬ q = "") :
    (normalize_url url = Except.ok
      (let kept := ((splitOnChar '&' q.data).map String.mk).filter
          (fun pr => !(tracking_params.any (fun tp => hasSub tp.data pr.data)))
       let clean_query := if kept.isEmpty then "" else String.intercalate "&" kept
       let clean_url := s ++ "://" ++ n ++ pth
       if clean_query = "" then clean_url else clean_url ++ "?" ++ clean_query)) ∧
    (((splitOnChar '&' q.data).map String.mk).filter
        (fun pr => !(tracking_params.any (fun tp => hasSub tp.data pr.data)))).Sublist
      ((splitOnChar '&' q.data).map String.mk) ∧
    (∀ x ∈ (splitOnChar '&' q.data).map String.mk,
      (x ∈ ((splitOnChar '&' q.data).map String.mk).filter
          (fun pr => !(tracking_params.any (fun tp => hasSub tp.data pr.data))) ↔
        tracking_params.any (fun tp => hasSub tp.data x.data) = false)) := by
  refine ⟨?_, List.filter_sublist _, ?_⟩
  · unfold normalize_url
    dsimp only
    rw [hp]
    dsimp only
    rw [if_neg hq]
  · intro x hx
    simp [List.mem_filter, hx]

/-- C5 witness: a concrete URL exercising the amended statement — the
parameter `q=reference` is removed while `a=1` and `b=2` survive in
order. -/
theorem C5_witness :
    urlparseE (ensureScheme "https://example.com/path?a=1&q=reference&b=2") =
      Except.ok ⟨"https", "example.com", "/path", "a=1&q=reference&b=2"⟩ ∧
    normalize_url "https://example.com/path?a=1&q=reference&b=2" =
      Except.ok "https://example.com/path?a=1&b=2" := by
  refine ⟨rfl, ?_⟩
  have h := (C5_amended "https://example.com/path?a=1&q=reference&b=2"
    "https" "example.com" "/path" "a=1&q=reference&b=2" rfl (by decide)).1
  exact h.trans rfl

/-! ### C6: the intel confidence formula -/

/-- C6 counterexample input: a found record whose `url_status` is the empty
string (any status other than online/offline/unknown behaves the same).
The code applies the modifier table's −0.2 default and returns 0.7, while
the claim's formula — which only adjusts for `offline` and `unknown` —
yields 0.9. -/
theorem C6_counterexample :
    calculate_confidence "" none [] = 7/10 ∧
    claimIntelConfidence "" none [] = 9/10 ∧
    ¬ calculate_confidence "" none [] = claimIntelConfidence "" none [] := by
  refine ⟨?_, ?_, ?_⟩ <;>
    · simp +decide [calculate_confidence, claimIntelConfidence, urlStatusModifier,
        high_risk_tags, min_def, max_def]
      norm_num

/-- C6 (amended): the confidence for a found result is base 0.9 adjusted by
−0.1 for `offline` and −0.2 for every status other than `online` and
`offline` (the modifier table's default, which subsumes `unknown`), an
additional −0.1 when the record is older than 30 days, +0.05 capped at
0.95 on a high-risk tag, and the result is clamped to [0,1]. -/
theorem C6_amended (s : String) (d : Option Int) (tags : List String) :
    calculate_confidence s d tags = amendedIntelConfidence s d tags ∧
    0 ≤ calculate_confidence s d tags ∧ calculate_confidence s d tags ≤ 1 := by
  unfold calculate_confidence amendedIntelConfidence urlStatusModifier
  refine ⟨?_, ?_, ?_⟩
  · dsimp only
    split_ifs <;> rfl
  · dsimp only
    exact le_max_left _ _
  · dsimp only
    exact max_le (by norm_num) (min_le_left _ _)

/-! ### C7: `add_user_report` -/

/-- C7 counterexample: on an empty store, one `add_user_report` produces a
record with `report_count` 2 — the `INSERT OR IGNORE` writes the default 1
and the unconditional follow-up `UPDATE` bumps it — contradicting the
claim's "and thus report_count 1". -/
theorem C7_counterexample :
    add_user_report 0 ⟨[], [], []⟩ "https://scam.example/login" "fake login" none =
      ⟨[⟨"sha256:https://scam.example/login", "https://scam.example/login", "scam.example",
         "user_reported", (7/10 : ℚ), "user_report", none, 0, 0, 2, true⟩],
       [⟨"sha256:https://scam.example/login", "https://scam.example/login", "fake login", none⟩],
       []⟩ ∧
    ¬ (add_user_report 0 ⟨[], [], []⟩ "https://scam.example/login" "fake login" none).scam_urls.map
        (fun r => r.report_count) = [1] := by
  have h2 : (add_user_report 0 ⟨[], [], []⟩ "https://scam.example/login" "fake login"
      none).scam_urls.map (fun r => r.report_count) = [2] := rfl
  refine ⟨rfl, fun h => absurd (h2.symm.trans h) (by simp)⟩

/-- C7 (amended): every `add_user_report` call appends a UserReport row;
when no record exists for the URL's hash a new `scam_urls` record is
created with threat_type `user_reported`, source `user_report`, confidence
0.7, and its `report_count` immediately bumped to 2 by the unconditional
post-insert update; when a record exists, its `report_count` is
incremented and `last_seen` refreshed while threat_type, source and
confidence stay untouched. -/
theorem C7_amended (now : Nat) (st : Store) (url desc : String) (uid : Option String)
    (p : ParsedUrl) (hp : urlparseE url = Except.ok p) :
    (add_user_report now st url desc uid).user_reports
        = st.user_reports ++ [⟨hash_url url, url, desc, uid⟩] ∧
    ((∀ r ∈ st.scam_urls, ¬ r.url_hash = hash_url url) →
      (add_user_report now st url desc uid).scam_urls
        = st.scam_urls ++
          [⟨hash_url url, url, p.netloc, "user_reported", (7/10 : ℚ), "user_report",
            none, now, now, 2, true⟩]) ∧
    (st.scam_urls.any (fun r => r.url_hash == hash_url url) = true →
      (add_user_report now st url desc uid).scam_urls
        = st.scam_urls.map
            (fun r => if r.url_hash == hash_url url then bumpRec now r else r)) ∧
    (∀ r : ScamRecord, (bumpRec now r).threat_type = r.threat_type ∧
      (bumpRec now r).source = r.source ∧ (bumpRec now r).confidence = r.confidence ∧
      (bumpRec now r).report_count = r.report_count + 1 ∧ (bumpRec now r).last_seen = now) := by
  unfold add_user_report
  rw [hp]
  refine ⟨rfl, ?_, ?_, fun r => ⟨rfl, rfl, rfl, rfl, rfl⟩⟩
  · intro h
    have hany : st.scam_urls.any (fun r => r.url_hash == hash_url url) = false := by
      simp only [List.any_eq_false]
      intro r hr
      simpa using h r hr
    dsimp only
    rw [hany]
    simp only [Bool.false_eq_true, if_false, List.map_append,
      map_keep_of_no_hash now (hash_url url) st.scam_urls h]
    simp [bumpRec]
  · intro h
    dsimp only
    rw [h]
    simp

/-- C7 witness: the amended statement applied to the empty store. -/
theorem C7_witness :
    urlparseE "https://scam.example/login" =
      Except.ok ⟨"https", "scam.example", "/login", ""⟩ ∧
    (add_user_report 3 ⟨[], [], []⟩ "https://scam.example/login" "d" none).scam_urls =
      [⟨hash_url "https://scam.example/login", "https://scam.example/login", "scam.example",
        "user_reported", (7/10 : ℚ), "user_report", none, 3, 3, 2, true⟩] ∧
    (add_user_report 3 ⟨[], [], []⟩ "https://scam.example/login" "d" none).user_reports =
      [⟨hash_url "https://scam.example/login", "https://scam.example/login", "d", none⟩] := by
  have h := C7_amended 3 ⟨[], [], []⟩ "https://scam.example/login" "d" none
    ⟨"https", "scam.example", "/login", ""⟩ rfl
  refine ⟨rfl, ?_, ?_⟩
  · have h2 := h.2.1 (by intro r hr; simp at hr)
    simpa using h2
  · simpa using h.1

/-! ### C8: the structure analyzer -/

/-- C8 counterexample: the host `1.2.3.4.gateway.com` is not a dotted-quad
IP and its TLD is `.com`, so the claim's formula yields 0.2 (subdomain
contribution only); the code's unanchored IP prefix regex and
suspicious-TLD substring test (`.ga` inside `.gateway`) both fire and it
returns 0.9. -/
theorem C8_counterexample :
    analyze_url_structure "https://1.2.3.4.gateway.com/" = Except.ok (9/10 : ℚ) ∧
    claimStructureScore "1.2.3.4.gateway.com" = (1/5 : ℚ) ∧
    ¬ analyze_url_structure "https://1.2.3.4.gateway.com/" =
        Except.ok (claimStructureScore "1.2.3.4.gateway.com") := by
  have hp : urlparseE "https://1.2.3.4.gateway.com/" =
      Except.ok ⟨"https", "1.2.3.4.gateway.com", "/", ""⟩ := rfl
  have hs : structure_netloc_score "1.2.3.4.gateway.com" = 9/10 := by
    simp +decide [structure_netloc_score, min_def]
    norm_num
  have hc : claimStructureScore "1.2.3.4.gateway.com" = 1/5 := by
    simp +decide [claimStructureScore, claimIsDottedQuadIP, claimHasSuspiciousTld, min_def]
    norm_num
  have ha : analyze_url_structure "https://1.2.3.4.gateway.com/" = Except.ok (9/10 : ℚ) := by
    unfold analyze_url_structure
    rw [hp]
    dsimp only
    rw [hs]
  refine ⟨ha, hc, ?_⟩
  intro h
  rw [ha, hc] at h
  injection h with h
  norm_num at h

/-- C8 (amended): for every host string, the structure analyzer returns the
clamped-to-1.0 sum of exactly these contributions — +0.4 if the host
*starts with* a digits.digits.digits.digits prefix (the unanchored
`re.match`), +0.2 if the netloc is longer than 50 characters, +0.3 if one
of the suspicious TLD strings occurs as a *substring* of the host, +0.2 if
`len(netloc.split('.')) - 1 > 3` — and it is a pure function with result
in [0,1]. -/
theorem C8_amended (netloc : String) :
    structure_netloc_score netloc = amendedStructureScore netloc ∧
    0 ≤ structure_netloc_score netloc ∧ structure_netloc_score netloc ≤ 1 := by
  refine ⟨?_, (structure_netloc_score_bounds netloc).1, (structure_netloc_score_bounds netloc).2⟩
  unfold structure_netloc_score amendedStructureScore
  dsimp only
  split_ifs <;> norm_num

/-! ### Witness constants -/

/-- A benign environment: no intel hits, no regex matches. -/
def envNone : Env :=
  ⟨fun _ => .ok ⟨false, "none"⟩, fun _ => .ok ⟨false, false, 0⟩,
   fun _ => .ok ⟨false, "none"⟩, fun _ _ => false, 0⟩

/-- An environment whose regex oracle matches every signature. -/
def envAllRegex : Env :=
  ⟨fun _ => .ok ⟨false, "none"⟩, fun _ => .ok ⟨false, false, 0⟩,
   fun _ => .ok ⟨false, "none"⟩, fun _ _ => true, 0⟩

/-- An environment whose URL intel query reports malware. -/
def envMal : Env :=
  ⟨fun _ => .ok ⟨true, "MALWARE"⟩, fun _ => .ok ⟨true, true, 3⟩,
   fun _ => .ok ⟨false, ""⟩, fun _ _ => false, 7⟩

/-- The empty store. -/
def store0 : Store := ⟨[], [], []⟩

/-- A store holding one confirmed active threat record. -/
def rec1 : ScamRecord :=
  ⟨hash_url "https://known.bad/", "https://known.bad/", "known.bad",
   "phishing", 9/10, "default", none, 0, 0, 1, true⟩

/-- The store containing exactly `rec1`. -/
def store1 : Store := ⟨[rec1], [], []⟩

/-- Discriminator for the success shape of `AnalyzeResult`. -/
def isOkResult : AnalyzeResult → Bool
  | .ok _ => true
  | .failed _ _ _ => false

/-! ### More pipeline helper lemmas -/

lemma find?_append_none {α : Type} (p : α → Bool) (l1 l2 : List α)
    (h : ∀ x ∈ l1, p x = false) : (l1 ++ l2).find? p = l2.find? p := by
  induction l1 with
  | nil => rfl
  | cons a as ih =>
    have ha := h a (by simp)
    simp only [List.cons_append, List.find?, ha]
    exact ih (fun x hx => h x (by simp [hx]))

/-- On a fresh URL, `add_user_report` appends exactly one record (already
bumped to `report_count` 2) and one report row. -/
lemma add_user_report_fresh (now : Nat) (st : Store) (url desc : String)
    (uid : Option String) (p : ParsedUrl) (hp : urlparseE url = Except.ok p)
    (habs : ∀ r ∈ st.scam_urls, ¬ r.url_hash = hash_url url) :
    (add_user_report now st url desc uid).scam_urls
      = st.scam_urls ++
        [⟨hash_url url, url, p.netloc, "user_reported", 7/10, "user_report",
          none, now, now, 2, true⟩] ∧
    (add_user_report now st url desc uid).user_reports
      = st.user_reports ++ [⟨hash_url url, url, desc, uid⟩] ∧
    (add_user_report now st url desc uid).history = st.history := by
  unfold add_user_report
  rw [hp]
  have hany : st.scam_urls.any (fun r => r.url_hash == hash_url url) = false := by
    simp only [List.any_eq_false]
    intro r hr
    simpa using habs r hr
  dsimp only
  rw [hany]
  refine ⟨?_, rfl, rfl⟩
  simp only [Bool.false_eq_true, if_false, List.map_append,
    map_keep_of_no_hash now (hash_url url) st.scam_urls habs]
  simp [bumpRec]

/-- Characterization of the tier-1 (local database hit) terminal path of
`analyze_url`. -/
lemma analyze_local_hit (env : Env) (st : Store) (url nurl : String) (rec : ScamRecord)
    (hn : normalize_url url = Except.ok nurl)
    (hdb : st.scam_urls.find? (fun r => r.url_hash == hash_url nurl && r.is_active) = some rec) :
    (analyze_url env st url).result
      = AnalyzeResult.ok (finalize (tier_local rec (initVerdict env.now nurl)).1) ∧
    (analyze_url env st url).store.history
      = st.history ++ [⟨hash_url nurl, nurl, "critical", 0 + rec.confidence,
          ["local_database"], true⟩] ∧
    (analyze_url env st url).calls = [ExtCall.dbCheck] ∧
    (analyze_url env st url).levels = ["critical"] ∧
    (analyze_url env st url).contribs = ["critical"] := by
  unfold analyze_url runAnalysis check_url_in_database
  dsimp only
  rw [hn]
  dsimp only
  rw [hdb]
  dsimp only [tier_local, initVerdict, log_detection, finalize]
  refine ⟨rfl, rfl, rfl, rfl, rfl⟩

/-! ### C2: analyze always returns a verdict -/

/-- C2: every `analyze_url` call returns a result value — the pipeline's
verdict when the `try` body completes, and otherwise the universal
fallback dict, whose `threat_level` is `unknown` and whose `is_suspicious`
is false; no exception propagates to the caller (the embedding of
`analyze_url` is a total function). -/
theorem C2_total_fallback (env : Env) (st : Store) (url : String) :
    (∃ v, (runAnalysis env st url).result = Except.ok v ∧
      (analyze_url env st url).result = AnalyzeResult.ok v) ∨
    (∃ e, (runAnalysis env st url).result = Except.error e ∧
      (analyze_url env st url).result =
        AnalyzeResult.failed url e "Unable to analyze this URL at the moment." ∧
      resThreatLevel (analyze_url env st url).result = "unknown" ∧
      resIsSuspicious (analyze_url env st url).result = false) := by
  unfold analyze_url
  dsimp only
  cases h : (runAnalysis env st url).result with
  | ok v => exact Or.inl ⟨v, rfl, rfl⟩
  | error e => exact Or.inr ⟨e, rfl, rfl, rfl, rfl⟩

/-! ### C10: the shape of the error-path dict -/

/-- C10: when an internal exception escapes the pipeline, the returned dict
carries exactly the keys url (the raw un-normalized input), is_suspicious
(false), threat_level (unknown), error, and message; the confidence,
detection_methods and warnings keys of the success shape are absent. -/
theorem C10_error_shape (env : Env) (st : Store) (url e : String)
    (h : (runAnalysis env st url).result = Except.error e) :
    (analyze_url env st url).result =
      AnalyzeResult.failed url e "Unable to analyze this URL at the moment." ∧
    resultKeys (analyze_url env st url).result =
      ["url", "is_suspicious", "threat_level", "error", "message"] ∧
    ¬ "confidence" ∈ resultKeys (analyze_url env st url).result ∧
    ¬ "detection_methods" ∈ resultKeys (analyze_url env st url).result ∧
    ¬ "warnings" ∈ resultKeys (analyze_url env st url).result ∧
    resUrlField (analyze_url env st url).result = url ∧
    resThreatLevel (analyze_url env st url).result = "unknown" ∧
    resIsSuspicious (analyze_url env st url).result = false := by
  have hres : (analyze_url env st url).result =
      AnalyzeResult.failed url e "Unable to analyze this URL at the moment." := by
    unfold analyze_url
    dsimp only
    rw [h]
  refine ⟨hres, ?_, ?_, ?_, ?_, ?_, ?_, ?_⟩ <;> rw [hres]
  · rfl
  · simp [resultKeys]
  · simp [resultKeys]
  · simp [resultKeys]
  · rfl
  · rfl
  · rfl

/-- C10 witness: analyzing `https://[` raises CPython's
`ValueError("Invalid IPv6 URL")` inside `_normalize_url`; the fallback
dict comes back with the raw URL and without the success-only keys. -/
theorem C10_witness :
    (runAnalysis envNone store0 "https://[").result = Except.error "Invalid IPv6 URL" ∧
    (analyze_url envNone store0 "https://[").result =
      AnalyzeResult.failed "https://[" "Invalid IPv6 URL"
        "Unable to analyze this URL at the moment." ∧
    ¬ "confidence" ∈ resultKeys (analyze_url envNone store0 "https://[").result ∧
    resThreatLevel (analyze_url envNone store0 "https://[").result = "unknown" := by
  have h : (runAnalysis envNone store0 "https://[").result = Except.error "Invalid IPv6 URL" := rfl
  have h2 := C10_error_shape envNone store0 "https://[" "Invalid IPv6 URL" h
  exact ⟨h, h2.1, h2.2.2.1, h2.2.2.2.2.2.2.1⟩

/-! ### C1: the local-store hit is terminal -/

/-- C1: when the normalized URL has an active record in the Local Threat
Store, `analyze_url` returns threat_level critical, is_suspicious true,
detection_methods exactly `[local_database]`, and confidence
`min(record.confidence, 1)`; it logs one DetectionEvent and returns
immediately — no URLhaus URL query, no URLhaus host query, no PhishTank
query, and no heuristic analyzer runs. -/
theorem C1_local_hit_terminal (env : Env) (st : Store) (url nurl : String) (rec : ScamRecord)
    (hn : normalize_url url = Except.ok nurl)
    (hdb : st.scam_urls.find? (fun r => r.url_hash == hash_url nurl && r.is_active) = some rec) :
    ∃ v, (analyze_url env st url).result = AnalyzeResult.ok v ∧
      v.threat_level = "critical" ∧
      v.is_suspicious = true ∧
      v.detection_methods = ["local_database"] ∧
      v.confidence = min rec.confidence 1 ∧
      (analyze_url env st url).store.history =
        st.history ++ [⟨hash_url nurl, nurl, "critical", rec.confidence,
          ["local_database"], true⟩] ∧
      (analyze_url env st url).calls = [ExtCall.dbCheck] ∧
      ¬ ExtCall.urlhausUrl ∈ (analyze_url env st url).calls ∧
      ¬ ExtCall.urlhausHost ∈ (analyze_url env st url).calls ∧
      ¬ ExtCall.phishTank ∈ (analyze_url env st url).calls ∧
      ¬ ExtCall.patternHeur ∈ (analyze_url env st url).calls ∧
      ¬ ExtCall.structureHeur ∈ (analyze_url env st url).calls ∧
      ¬ ExtCall.regionalHeur ∈ (analyze_url env st url).calls := by
  obtain ⟨hres, hhist, hcalls, -, -⟩ := analyze_local_hit env st url nurl rec hn hdb
  refine ⟨_, hres, rfl, rfl, rfl, ?_, ?_, hcalls, ?_, ?_, ?_, ?_, ?_, ?_⟩
  · show min ((0 : ℚ) + rec.confidence) 1 = min rec.confidence 1
    rw [zero_add]
  · rw [hhist, zero_add]
  all_goals rw [hcalls]
  all_goals decide

/-- C1 witness: the concrete store holding `rec1` short-circuits the
analysis of `https://known.bad/`. -/
theorem C1_witness :
    normalize_url "https://known.bad/" = Except.ok "https://known.bad/" ∧
    store1.scam_urls.find?
      (fun r => r.url_hash == hash_url "https://known.bad/" && r.is_active) = some rec1 ∧
    ∃ v, (analyze_url envNone store1 "https://known.bad/").result = AnalyzeResult.ok v ∧
      v.threat_level = "critical" ∧ v.detection_methods = ["local_database"] ∧
      v.confidence = min rec1.confidence 1 ∧
      (analyze_url envNone store1 "https://known.bad/").calls = [ExtCall.dbCheck] := by
  refine ⟨rfl, rfl, ?_⟩
  obtain ⟨v, h1, h2, h3, h4, h5, h6, h7, h8⟩ :=
    C1_local_hit_terminal envNone store1 "https://known.bad/" "https://known.bad/" rec1 rfl rfl
  exact ⟨v, h1, h2, h4, h5, h7⟩

/-! ### C9: the intel write-through goes through add_user_report -/

/-- Store effect of the tier-2 (URLhaus malicious) terminal path: the
write-through record is created by `add_user_report`, so it carries
threat_type `user_reported`, source `user_report`, confidence 0.7 (and
`report_count` 2). -/
lemma analyze_urlhaus_hit_store (env : Env) (st : Store) (url nurl : String)
    (uh : UrlhausUrlResult) (p : ParsedUrl)
    (hn : normalize_url url = Except.ok nurl)
    (habs : ∀ r ∈ st.scam_urls, ¬ r.url_hash = hash_url nurl)
    (huh : env.check_urlhaus nurl = Except.ok uh)
    (hmal : uh.is_malicious = true)
    (hp : urlparseE nurl = Except.ok p)
    (hhost : ¬ p.netloc = "" → ∃ hr, env.check_urlhaus_host p.netloc = Except.ok hr) :
    (analyze_url env st url).store.scam_urls
      = st.scam_urls ++ [⟨hash_url nurl, nurl, p.netloc, "user_reported", 7/10,
          "user_report", none, env.now, env.now, 2, true⟩] := by
  have hfind : st.scam_urls.find? (fun r => r.url_hash == hash_url nurl && r.is_active)
      = none := by
    rw [List.find?_eq_none]
    intro r hr
    simp [habs r hr]
  have hfresh := add_user_report_fresh env.now st nurl
    ("Detected by URLhaus: " ++ uh.details) none p hp habs
  unfold analyze_url runAnalysis check_url_in_database
  dsimp only
  rw [hn]
  dsimp only
  rw [hfind]
  dsimp only
  rw [huh]
  dsimp only
  rw [hmal]
  simp only [if_true]
  rw [hp]
  dsimp only
  by_cases hnl : p.netloc = ""
  · rw [if_pos hnl]
    dsimp only [log_detection]
    exact hfresh.1
  · rw [if_neg hnl]
    obtain ⟨hr, hhr⟩ := hhost hnl
    rw [hhr]
    dsimp only [log_detection]
    exact hfresh.1

/-- C9: when the URLhaus URL query reports a URL malicious and no local
record exists, the write-through record carries threat_type
`user_reported`, source `user_report`, confidence 0.7; a subsequent
analyze of the same URL hits the local-database tier with confidence 0.7
and not the 0.95 that the intel tier assigned. -/
theorem C9_writethrough (env : Env) (st : Store) (url nurl : String)
    (uh : UrlhausUrlResult) (p : ParsedUrl)
    (hn : normalize_url url = Except.ok nurl)
    (habs : ∀ r ∈ st.scam_urls, ¬ r.url_hash = hash_url nurl)
    (huh : env.check_urlhaus nurl = Except.ok uh)
    (hmal : uh.is_malicious = true)
    (hp : urlparseE nurl = Except.ok p)
    (hhost : ¬ p.netloc = "" → ∃ hr, env.check_urlhaus_host p.netloc = Except.ok hr) :
    (∃ rec ∈ (analyze_url env st url).store.scam_urls,
        rec.url_hash = hash_url nurl ∧ rec.threat_type = "user_reported" ∧
        rec.source = "user_report" ∧ rec.confidence = 7/10) ∧
    (∃ v2, (analyze_url env (analyze_url env st url).store url).result
          = AnalyzeResult.ok v2 ∧
        v2.detection_methods = ["local_database"] ∧
        v2.confidence = 7/10 ∧ ¬ v2.confidence = 19/20) := by
  have hsc := analyze_urlhaus_hit_store env st url nurl uh p hn habs huh hmal hp hhost
  constructor
  · exact ⟨⟨hash_url nurl, nurl, p.netloc, "user_reported", 7/10, "user_report",
      none, env.now, env.now, 2, true⟩, by rw [hsc]; simp, rfl, rfl, rfl, rfl⟩
  · have hfalse : ∀ x ∈ st.scam_urls,
        (x.url_hash == hash_url nurl && x.is_active) = false := by
      intro x hx
      simp [habs x hx]
    have hfind2 : (analyze_url env st url).store.scam_urls.find?
        (fun r => r.url_hash == hash_url nurl && r.is_active)
        = some ⟨hash_url nurl, nurl, p.netloc, "user_reported", 7/10, "user_report",
            none, env.now, env.now, 2, true⟩ := by
      rw [hsc, find?_append_none _ _ _ hfalse]
      simp [List.find?]
    obtain ⟨hres2, -, -, -, -⟩ := analyze_local_hit env (analyze_url env st url).store url nurl
      ⟨hash_url nurl, nurl, p.netloc, "user_reported", 7/10, "user_report",
        none, env.now, env.now, 2, true⟩ hn hfind2
    refine ⟨_, hres2, rfl, ?_, ?_⟩
    · show min ((0 : ℚ) + 7/10) 1 = 7/10
      norm_num [min_def]
    · show ¬ min ((0 : ℚ) + 7/10) 1 = 19/20
      norm_num [min_def]

/-- C9 witness: with a mocked malicious intel response on an empty store,
a second analyze of the same URL short-circuits on the local store at
confidence 0.7. -/
theorem C9_witness :
    normalize_url "https://bad.example/thing" = Except.ok "https://bad.example/thing" ∧
    ∃ v2, (analyze_url envMal (analyze_url envMal store0 "https://bad.example/thing").store
        "https://bad.example/thing").result = AnalyzeResult.ok v2 ∧
      v2.detection_methods = ["local_database"] ∧ v2.confidence = 7/10 := by
  refine ⟨rfl, ?_⟩
  obtain ⟨h1, h2⟩ := C9_writethrough envMal store0 "https://bad.example/thing"
    "https://bad.example/thing" ⟨true, "MALWARE"⟩ ⟨"https", "bad.example", "/thing", ""⟩
    rfl (by intro r hr; simp [store0] at hr) rfl rfl rfl
    (fun _ => ⟨⟨true, true, 3⟩, rfl⟩)
  obtain ⟨v2, hv, hm, hc, -⟩ := h2
  exact ⟨v2, hv, hm, hc⟩

/-! ### Per-tier invariant lemmas for monotone escalation (C3) and
confidence bounds (C4) -/

lemma sevFold_snoc (contribs : List String) (c : Option String) :
    sevFold (contribs ++ c.toList) =
      (match c with
       | none => sevFold contribs
       | some s => max (sevFold contribs) (severityOf s)) := by
  cases c with
  | none => simp
  | some s => simp [sevFold_append, sevFold]

lemma tier_pt_step (b : Bool) (d : String) (v : Verdict)
    (h : v.threat_level = "safe" ∨ v.threat_level = "high") :
    severityOf (tier_phish_tank b d v).1.threat_level
      = (match (tier_phish_tank b d v).2 with
         | none => severityOf v.threat_level
         | some s => max (severityOf v.threat_level) (severityOf s)) ∧
    severityOf v.threat_level ≤ severityOf (tier_phish_tank b d v).1.threat_level ∧
    ((tier_phish_tank b d v).1.threat_level = "safe" ∨
     (tier_phish_tank b d v).1.threat_level = "high" ∨
     (tier_phish_tank b d v).1.threat_level = "critical") ∧
    (0 ≤ v.confidence → 0 ≤ (tier_phish_tank b d v).1.confidence) := by
  cases b with
  | false =>
    have hv : tier_phish_tank false d v = (v, none) := by simp [tier_phish_tank]
    rw [hv]
    exact ⟨rfl, le_refl _, h.imp id Or.inl, fun h0 => h0⟩
  | true =>
    rcases h with h | h <;>
      simp only [tier_phish_tank, if_true, h] <;>
      refine ⟨by simp, by simp [h], by simp, fun h0 => by linarith⟩

lemma tier_pattern_step (score : ℚ) (v : Verdict)
    (h : v.threat_level = "safe" ∨ v.threat_level = "high" ∨ v.threat_level = "critical")
    (hs : 0 ≤ score) :
    severityOf (tier_pattern score v).1.threat_level
      = (match (tier_pattern score v).2 with
         | none => severityOf v.threat_level
         | some s => max (severityOf v.threat_level) (severityOf s)) ∧
    severityOf v.threat_level ≤ severityOf (tier_pattern score v).1.threat_level ∧
    ((tier_pattern score v).1.threat_level = "safe" ∨
     (tier_pattern score v).1.threat_level = "medium" ∨
     (tier_pattern score v).1.threat_level = "high" ∨
     (tier_pattern score v).1.threat_level = "critical") ∧
    (0 ≤ v.confidence → 0 ≤ (tier_pattern score v).1.confidence) := by
  by_cases hf : score > (3/10 : ℚ)
  · by_cases h7 : score > (7/10 : ℚ) <;>
      rcases h with h | h | h <;>
        simp only [tier_pattern, hf, h7, if_true, if_false, h] <;>
        refine ⟨by simp [h], by simp [h], by simp, fun h0 => ?_⟩ <;>
        nlinarith
  · have hv : tier_pattern score v = (v, none) := by simp [tier_pattern, hf]
    rw [hv]
    exact ⟨rfl, le_refl _, by tauto, fun h0 => h0⟩

lemma tier_structure_step (score : ℚ) (v : Verdict)
    (h : v.threat_level = "safe" ∨ v.threat_level = "medium" ∨
         v.threat_level = "high" ∨ v.threat_level = "critical") :
    severityOf (tier_structure score v).1.threat_level
      = (match (tier_structure score v).2 with
         | none => severityOf v.threat_level
         | some s => max (severityOf v.threat_level) (severityOf s)) ∧
    severityOf v.threat_level ≤ severityOf (tier_structure score v).1.threat_level ∧
    ((tier_structure score v).1.threat_level = "safe" ∨
     (tier_structure score v).1.threat_level = "medium" ∨
     (tier_structure score v).1.threat_level = "high" ∨
     (tier_structure score v).1.threat_level = "critical") ∧
    (0 ≤ v.confidence → 0 ≤ (tier_structure score v).1.confidence) := by
  by_cases hf : score > (3/5 : ℚ)
  · rcases h with h | h | h | h <;>
      simp only [tier_structure, hf, if_true, h] <;>
      refine ⟨by simp [h], by simp [h], by simp, fun h0 => by linarith⟩
  · have hv : tier_structure score v = (v, none) := by simp [tier_structure, hf]
    rw [hv]
    exact ⟨rfl, le_refl _, h, fun h0 => h0⟩

lemma tier_myanmar_step (score : ℚ) (v : Verdict)
    (h : v.threat_level = "safe" ∨ v.threat_level = "medium" ∨
         v.threat_level = "high" ∨ v.threat_level = "critical") :
    severityOf (tier_myanmar score v).1.threat_level
      = (match (tier_myanmar score v).2 with
         | none => severityOf v.threat_level
         | some s => max (severityOf v.threat_level) (severityOf s)) ∧
    severityOf v.threat_level ≤ severityOf (tier_myanmar score v).1.threat_level ∧
    (0 ≤ v.confidence → 0 ≤ (tier_myanmar score v).1.confidence) := by
  by_cases hf : score > (7/10 : ℚ)
  · rcases h with h | h | h | h <;>
      simp only [tier_myanmar, hf, if_true, h] <;>
      refine ⟨by simp [h], by simp [h], fun h0 => by linarith⟩
  · have hv : tier_myanmar score v = (v, none) := by simp [tier_myanmar, hf]
    rw [hv]
    exact ⟨rfl, le_refl _, fun h0 => h0⟩

/-- Combined invariant for the fallback tiers 4-7: the levels trace stays
monotone, the final severity is the max of the contributed severities, and
the clamped confidence lies in [0,1]. -/
lemma afterHost_main (env : Env) (st : Store) (nurl : String) (v1 : Verdict)
    (calls : List ExtCall) (levels contribs : List String) (v : Verdict)
    (hlv : v1.threat_level = "safe" ∨ v1.threat_level = "high")
    (hinv : severityOf v1.threat_level = sevFold contribs)
    (hm : monoFrom 1 levels = true)
    (hl : lastSev 1 levels = severityOf v1.threat_level)
    (hc : 0 ≤ v1.confidence)
    (hok : (afterHost env st nurl v1 calls levels contribs).result = Except.ok v) :
    monoFrom 1 (afterHost env st nurl v1 calls levels contribs).levels = true ∧
    severityOf v.threat_level
      = sevFold (afterHost env st nurl v1 calls levels contribs).contribs ∧
    0 ≤ v.confidence ∧ v.confidence ≤ 1 := by
  rcases hpt : env.check_phish_tank nurl with e | pt
  · simp only [afterHost, hpt] at hok
    exact absurd hok (by simp)
  rcases hpa : pattern_analysis env.re_search nurl with e | ps
  · simp only [afterHost, hpt, hpa] at hok
    exact absurd hok (by simp)
  rcases hst : analyze_url_structure nurl with e | ss
  · simp only [afterHost, hpt, hpa, hst] at hok
    exact absurd hok (by simp)
  rcases h2 : tier_phish_tank pt.is_phishing pt.details v1 with ⟨v2, c2⟩
  rcases h3 : tier_pattern ps v2 with ⟨v3, c3⟩
  rcases h4 : tier_structure ss v3 with ⟨v4, c4⟩
  rcases h5 : tier_myanmar (detect_myanmar_scams env.re_search nurl) v4 with ⟨v5, c5⟩
  have hout : afterHost env st nurl v1 calls levels contribs =
      ⟨Except.ok (finalize v5), st,
       calls ++ [.phishTank, .patternHeur, .structureHeur, .regionalHeur],
       levels ++ [v2.threat_level, v3.threat_level, v4.threat_level, v5.threat_level],
       contribs ++ c2.toList ++ c3.toList ++ c4.toList ++ c5.toList⟩ := by
    simp only [afterHost, hpt, hpa, hst, h2, h3, h4, h5]
  rw [hout] at hok
  simp only [Except.ok.injEq] at hok
  subst hok
  have S2 := tier_pt_step pt.is_phishing pt.details v1 hlv
  rw [h2] at S2
  obtain ⟨E2, M2, R2, C2⟩ := S2
  have hps := pattern_analysis_bounds env.re_search nurl ps hpa
  have S3 := tier_pattern_step ps v2 R2 hps.1
  rw [h3] at S3
  obtain ⟨E3, M3, R3, C3⟩ := S3
  have S4 := tier_structure_step ss v3 R3
  rw [h4] at S4
  obtain ⟨E4, M4, R4, C4⟩ := S4
  have S5 := tier_myanmar_step (detect_myanmar_scams env.re_search nurl) v4 R4
  rw [h5] at S5
  obtain ⟨E5, M5, C5⟩ := S5
  rw [hout]
  refine ⟨?_, ?_, ?_⟩
  · rw [monoFrom_append, hm, hl]
    simp only [Bool.true_and, monoFrom, Bool.and_eq_true, decide_eq_true_eq]
    exact ⟨M2, M3, M4, M5, trivial⟩
  · rw [finalize_threat_level]
    have F2 : severityOf v2.threat_level = sevFold (contribs ++ c2.toList) := by
      rw [sevFold_snoc, ← hinv]
      exact E2
    have F3 : severityOf v3.threat_level
        = sevFold (contribs ++ c2.toList ++ c3.toList) := by
      rw [sevFold_snoc, ← F2]
      exact E3
    have F4 : severityOf v4.threat_level
        = sevFold (contribs ++ c2.toList ++ c3.toList ++ c4.toList) := by
      rw [sevFold_snoc, ← F3]
      exact E4
    rw [sevFold_snoc, ← F4]
    exact E5
  · have h05 : 0 ≤ v5.confidence := C5 (C4 (C3 (C2 hc)))
    rw [finalize_confidence]
    exact ⟨le_min h05 (by norm_num), min_le_right _ _⟩

lemma check_db_some (now : Nat) (st : Store) (nurl : String) (rec : ScamRecord) (st1 : Store)
    (hdb : check_url_in_database now st nurl = (some rec, st1)) :
    st.scam_urls.find? (fun r => r.url_hash == hash_url nurl && r.is_active) = some rec := by
  unfold check_url_in_database at hdb
  dsimp only at hdb
  cases hfind : st.scam_urls.find? (fun r => r.url_hash == hash_url nurl && r.is_active) with
  | none => rw [hfind] at hdb; simp at hdb
  | some r =>
    rw [hfind] at hdb
    simp only [Prod.mk.injEq, Option.some.injEq] at hdb
    rw [hdb.1]

/-- Combined invariant for tier 3 followed by the fallback tiers, starting
from the fresh verdict. -/
lemma fallThrough_main (env : Env) (st : Store) (nurl : String) (p : ParsedUrl) (v : Verdict)
    (hok : (fallThroughTiers env st nurl (initVerdict env.now nurl) p).result = Except.ok v) :
    monoFrom 1 (fallThroughTiers env st nurl (initVerdict env.now nurl) p).levels = true ∧
    severityOf v.threat_level
      = sevFold (fallThroughTiers env st nurl (initVerdict env.now nurl) p).contribs ∧
    0 ≤ v.confidence ∧ v.confidence ≤ 1 := by
  by_cases hnl : p.netloc = ""
  · have hout : fallThroughTiers env st nurl (initVerdict env.now nurl) p
        = afterHost env st nurl (initVerdict env.now nurl)
            [.dbCheck, .urlhausUrl] [] [] := by
      unfold fallThroughTiers
      rw [if_pos hnl]
    rw [hout] at hok ⊢
    exact afterHost_main env st nurl _ _ _ _ v (Or.inl rfl)
      (show severityOf "safe" = sevFold [] by decide) rfl rfl le_rfl hok
  · rcases hhr : env.check_urlhaus_host p.netloc with e | hr
    · have hout : (fallThroughTiers env st nurl (initVerdict env.now nurl) p).result
          = Except.error e := by
        unfold fallThroughTiers
        rw [if_neg hnl, hhr]
      rw [hout] at hok
      exact absurd hok (by simp)
    · rcases h1 : tier_urlhaus_host hr.success hr.is_malicious hr.url_count
        (initVerdict env.now nurl) with ⟨v1, c1⟩
      have hout : fallThroughTiers env st nurl (initVerdict env.now nurl) p
          = afterHost env st nurl v1 [.dbCheck, .urlhausUrl, .urlhausHost]
              [v1.threat_level] c1.toList := by
        unfold fallThroughTiers
        rw [if_neg hnl, hhr]
        dsimp only
        rw [h1]
      rw [hout] at hok ⊢
      by_cases hfired : (hr.success && hr.is_malicious) = true
      · rw [tier_urlhaus_host, if_pos hfired] at h1
        simp only [Prod.mk.injEq] at h1
        obtain ⟨hv1, hc1⟩ := h1
        subst hv1
        subst hc1
        exact afterHost_main env st nurl _ _ _ _ v (Or.inr rfl)
          (show severityOf "high" = sevFold ["high"] by decide)
          (show monoFrom 1 ["high"] = true by decide)
          (show lastSev 1 ["high"] = severityOf "high" by decide)
          (show (0 : ℚ) ≤ 0 + 17/20 by norm_num) hok
      · rw [tier_urlhaus_host, if_neg hfired] at h1
        simp only [Prod.mk.injEq] at h1
        obtain ⟨hv1, hc1⟩ := h1
        subst hv1
        subst hc1
        exact afterHost_main env st nurl _ _ _ _ v (Or.inl rfl)
          (show severityOf "safe" = sevFold [] by decide)
          (show monoFrom 1 ["safe"] = true by decide)
          (show lastSev 1 ["safe"] = severityOf "safe" by decide)
          le_rfl hok

/-- Combined invariant over one whole `runAnalysis` call: the threat level
only escalates along the executed tiers, the final severity is the maximum
contributed severity, and — under the store's confidence invariant — the
returned confidence lies in [0,1]. -/
lemma runAnalysis_main (env : Env) (st : Store) (url : String) (v : Verdict)
    (hok : (runAnalysis env st url).result = Except.ok v) :
    (monoFrom 1 (runAnalysis env st url).levels = true ∧
     severityOf v.threat_level = sevFold (runAnalysis env st url).contribs) ∧
    (StoreWF st → 0 ≤ v.confidence ∧ v.confidence ≤ 1) := by
  rcases hn : normalize_url url with e | nurl
  · simp only [runAnalysis, hn] at hok
    exact absurd hok (by simp)
  rcases hdb : check_url_in_database env.now st nurl with ⟨dbres, st1⟩
  cases dbres with
  | some rec =>
    simp only [runAnalysis, hn, hdb] at hok ⊢
    simp only [Except.ok.injEq] at hok
    subst hok
    have hfind := check_db_some env.now st nurl rec st1 hdb
    have hmem := List.mem_of_find?_eq_some hfind
    refine ⟨⟨?_, ?_⟩, ?_⟩
    · exact (show monoFrom 1 ["critical"] = true by decide)
    · exact (show severityOf "critical" = sevFold ["critical"] by decide)
    · intro hwf
      obtain ⟨hc0, hc1⟩ := hwf rec hmem
      constructor
      · show (0 : ℚ) ≤ min (0 + rec.confidence) 1
        rw [zero_add]
        exact le_min hc0 (by norm_num)
      · exact min_le_right _ _
  | none =>
    simp only [runAnalysis, hn, hdb] at hok ⊢
    rcases huh : env.check_urlhaus nurl with e | uh
    · simp only [huh] at hok
      exact absurd hok (by simp)
    simp only [huh] at hok ⊢
    by_cases hmal : uh.is_malicious = true
    · simp only [hmal, if_true] at hok ⊢
      rcases hp : urlparseE nurl with e | p
      · simp only [hp] at hok
        exact absurd hok (by simp)
      simp only [hp] at hok ⊢
      by_cases hnl : p.netloc = ""
      · simp only [hnl, if_true] at hok ⊢
        simp only [Except.ok.injEq] at hok
        subst hok
        refine ⟨⟨?_, ?_⟩, ?_⟩
        · exact (show monoFrom 1 ["critical"] = true by decide)
        · exact (show severityOf "critical" = sevFold ["critical"] by decide)
        · intro _
          constructor
          · show (0 : ℚ) ≤ min (0 + 19/20) 1
            norm_num [min_def]
          · exact min_le_right _ _
      · simp only [if_neg hnl] at hok ⊢
        rcases hhr : env.check_urlhaus_host p.netloc with e | hr
        · simp only [hhr] at hok
          exact absurd hok (by simp)
        simp only [hhr] at hok ⊢
        simp only [Except.ok.injEq] at hok
        subst hok
        have hlvl := tier_urlhaus_host_sub_level hr.success hr.is_malicious hr.url_count
          (tier_urlhaus uh.details (initVerdict env.now nurl)).1
        by_cases hsub : (hr.success && hr.is_malicious) = true
        · have hval : tier_urlhaus_host_sub hr.success hr.is_malicious hr.url_count
              (tier_urlhaus uh.details (initVerdict env.now nurl)).1
              = ({ (tier_urlhaus uh.details (initVerdict env.now nurl)).1 with
                    detection_methods := ["urlhaus", "urlhaus_host"],
                    confidence := 0 + 19/20 + 1/10,
                    warnings := ["URLhaus: " ++ uh.details,
                      "URLhaus Host: " ++ toString hr.url_count
                        ++ " malware URLs found on this domain"] },
                 some "high") := by
            rw [tier_urlhaus_host_sub, if_pos hsub]
            rfl
          rw [hval]
          refine ⟨⟨?_, ?_⟩, ?_⟩
          · exact (show monoFrom 1 ["critical", "critical"] = true by decide)
          · exact (show severityOf "critical" = sevFold ["critical", "high"] by decide)
          · intro _
            constructor
            · show (0 : ℚ) ≤ min (0 + 19/20 + 1/10) 1
              norm_num [min_def]
            · exact min_le_right _ _
        · have hval : tier_urlhaus_host_sub hr.success hr.is_malicious hr.url_count
              (tier_urlhaus uh.details (initVerdict env.now nurl)).1
              = ((tier_urlhaus uh.details (initVerdict env.now nurl)).1, none) := by
            rw [tier_urlhaus_host_sub, if_neg hsub]
          rw [hval]
          refine ⟨⟨?_, ?_⟩, ?_⟩
          · exact (show monoFrom 1 ["critical", "critical"] = true by decide)
          · exact (show severityOf "critical" = sevFold ["critical"] by decide)
          · intro _
            constructor
            · show (0 : ℚ) ≤ min (0 + 19/20) 1
              norm_num [min_def]
            · exact min_le_right _ _
    · simp only [Bool.not_eq_true] at hmal
      simp only [hmal, Bool.false_eq_true, if_false] at hok ⊢
      rcases hp : urlparseE nurl with e | p
      · simp only [hp] at hok
        exact absurd hok (by simp)
      simp only [hp] at hok ⊢
      obtain ⟨hmono, hsev, hconf⟩ := fallThrough_main env st1 nurl p v hok
      exact ⟨⟨hmono, hsev⟩, fun _ => hconf⟩

/-- Bridge: the success result of `analyze_url` is exactly the success of
the `try` body. -/
lemma analyze_ok_iff (env : Env) (st : Store) (url : String) (v : Verdict) :
    (analyze_url env st url).result = AnalyzeResult.ok v ↔
      (runAnalysis env st url).result = Except.ok v := by
  unfold analyze_url
  dsimp only
  cases h : (runAnalysis env st url).result with
  | ok w => simp
  | error e => simp

/-- Bridge: `analyze_url` forwards the run's side effects and
instrumentation unchanged. -/
lemma analyze_projections (env : Env) (st : Store) (url : String) :
    (analyze_url env st url).levels = (runAnalysis env st url).levels ∧
    (analyze_url env st url).contribs = (runAnalysis env st url).contribs := by
  unfold analyze_url
  dsimp only
  cases h : (runAnalysis env st url).result with
  | ok w => exact ⟨rfl, rfl⟩
  | error e => exact ⟨rfl, rfl⟩

/-! ### C3: monotone escalation -/

/-- C3: within one `analyze_url` call the threat level only escalates —
the severity of the level after each executed tier is nondecreasing under
the ordering critical > high > medium > safe > unknown — and the final
threat level's severity equals the maximum severity contributed by any
fired tier (the fold of `max` over the fired-tier contributions, starting
from `safe`). -/
theorem C3_monotone_escalation (env : Env) (st : Store) (url : String) (v : Verdict)
    (hok : (analyze_url env st url).result = AnalyzeResult.ok v) :
    monoFrom (severityOf "safe") (analyze_url env st url).levels = true ∧
    severityOf v.threat_level = sevFold (analyze_url env st url).contribs := by
  have hrun := (analyze_ok_iff env st url v).mp hok
  obtain ⟨hm, hs⟩ := (runAnalysis_main env st url v hrun).1
  obtain ⟨hL, hC⟩ := analyze_projections env st url
  refine ⟨?_, ?_⟩
  · rw [severityOf_safe, hL]
    exact hm
  · rw [hC]
    exact hs

/-- C3 witness: with every signature regex matching, the pattern tier
fires at `high` and the regional tier fires at `high`; the final level is
`high`, the maximum contributed severity, along a monotone trace. -/
theorem C3_witness :
    ∃ v, (analyze_url envAllRegex store0 "https://x.com/").result = AnalyzeResult.ok v ∧
      monoFrom (severityOf "safe") (analyze_url envAllRegex store0 "https://x.com/").levels
        = true ∧
      severityOf v.threat_level
        = sevFold (analyze_url envAllRegex store0 "https://x.com/").contribs := by
  have hok : isOkResult (analyze_url envAllRegex store0 "https://x.com/").result = true := by
    decide
  cases h : (analyze_url envAllRegex store0 "https://x.com/").result with
  | ok v =>
    obtain ⟨hm, hs⟩ := C3_monotone_escalation envAllRegex store0 "https://x.com/" v h
    exact ⟨v, rfl, hm, hs⟩
  | failed u e m =>
    rw [h] at hok
    simp [isOkResult] at hok

/-! ### C4: confidence bounds -/

/-- C4: for every URL and every environment, under the store invariant
that recorded confidences lie in [0,1], the confidence of the verdict
returned by `analyze_url` lies in [0,1] — on the terminal tier-1 and
tier-2 paths as well as on the fall-through path. -/
theorem C4_confidence_bounds (env : Env) (st : Store) (url : String) (v : Verdict)
    (hwf : StoreWF st)
    (hok : (analyze_url env st url).result = AnalyzeResult.ok v) :
    0 ≤ v.confidence ∧ v.confidence ≤ 1 :=
  (runAnalysis_main env st url v ((analyze_ok_iff env st url v).mp hok)).2 hwf

/-- C4 witness: the store holding `rec1` satisfies the invariant, and the
analysis of the recorded URL returns a confidence inside [0,1]. -/
theorem C4_witness :
    StoreWF store1 ∧
    ∃ v, (analyze_url envNone store1 "https://known.bad/").result = AnalyzeResult.ok v ∧
      0 ≤ v.confidence ∧ v.confidence ≤ 1 := by
  have hwf : StoreWF store1 := by
    intro r hr
    simp only [store1, List.mem_singleton] at hr
    subst hr
    constructor <;> norm_num [rec1]
  refine ⟨hwf, ?_⟩
  have hok : isOkResult (analyze_url envNone store1 "https://known.bad/").result = true := by
    decide
  cases h : (analyze_url envNone store1 "https://known.bad/").result with
  | ok v => exact ⟨v, rfl, C4_confidence_bounds envNone store1 "https://known.bad/" v hwf h⟩
  | failed u e m =>
    rw [h] at hok
    simp [isOkResult] at hok

end PhishGuard
